import Mathlib

/-!
Verification of the real-time relay backend (`backend/server.py`).

The development shallowly embeds the parts of the program the claims are
about: the per-request API-key lookup shared by the `/api/realtime-session`
endpoint and the `/ws/realtime` websocket handler, the `/api/transcribe`
endpoint, and the websocket relay handler itself (session acceptance,
upstream connect, the two forwarding coroutines joined by `asyncio.gather`,
and the teardown in the `except`/`finally` blocks).

External effects (reading `os.environ`, opening the `.env` file, the
frames a peer delivers, whether a transport close raises) are supplied as
an explicit environment; the embedding returns a record of the observable
actions the handler performed.
-/

namespace Avatar

/-- Python truthiness of an optional string: `None` and `""` are falsy.
The source guards every lookup step with `if not api_key:`. -/
def truthy : Option String → Bool
  | none => false
  | some s => !s.isEmpty

/-- Drop the leading and trailing characters satisfying `p`, like
Python's `str.strip(chars)`. -/
def pyStripChars (p : Char → Bool) (cs : List Char) : List Char :=
  ((cs.dropWhile p).reverse.dropWhile p).reverse

/-- Python's bare `str.strip()`: strip whitespace from both ends. -/
def pyStrip (s : String) : String :=
  String.mk (pyStripChars (fun c => c.isWhitespace) s.toList)

/-- The marker each lookup scans `.env` lines for (`OPENAI_API_KEY=`). -/
def apiKeyMarker : String := "OPENAI_API_KEY="

/-- Value extraction from a matching (already stripped) `.env` line:
`line.split('=', 1)[1].strip().strip(chr(34)).strip(chr(39))` in the
source. Since the line starts with the marker, the split's tail is the
text after the first `=`. -/
def parseEnvLineValue (line : String) : String :=
  String.mk
    (pyStripChars (fun c => c = '\'')
      (pyStripChars (fun c => c = '"')
        (pyStripChars (fun c => c.isWhitespace)
          (line.toList.drop apiKeyMarker.length))))

/-- The `.env` fallback of the per-request lookups (`server.py` lines
131-140 and 294-304): scan the file's lines in order, strip each, and on
the first line starting with `OPENAI_API_KEY=` take its value and stop.
No match leaves the key `None`. -/
def readKeyFromEnvFile (lines : List String) : Option String :=
  match lines.find?
      (fun l => apiKeyMarker.toList.isPrefixOf
        (pyStripChars (fun c => c.isWhitespace) l.toList)) with
  | some l => some (parseEnvLineValue (pyStrip l))
  | none => none

/-- External inputs of one per-request credential lookup. -/
structure KeyEnv where
  /-- `openai_client._client.api_key` when the `hasattr` chain succeeds
  and the attribute is set; `none` when the chain fails or the value is
  `None`. -/
  clientAttrKey : Option String
  /-- `os.environ.get ("OPENAI_API_KEY")` at lookup time. -/
  envVar : Option String
  /-- Whether `env_path.exists()` holds at lookup time. -/
  envFileExists : Bool
  /-- The lines of the `.env` file (an unreadable file behaves like one
  with no matching line: the bare `except` keeps the key `None`). -/
  envFileLines : List String
  deriving Repr, DecidableEq

/-- The per-request API-key lookup, shared verbatim by
`get_realtime_session` (`server.py` lines 123-140) and
`websocket_realtime` (lines 285-304):

1. take `openai_client._client.api_key` when accessible;
2. `if not api_key:` read `os.environ` again;
3. `if not api_key:` re-open and scan the `.env` file when it exists.

Besides the resulting key the embedding counts the environment reads and
file opens the lookup performed, to make the re-reading observable.
Returns `(key, environment reads, file opens)`. -/
def lookupApiKey (k : KeyEnv) : Option String × Nat × Nat :=
  if truthy k.clientAttrKey then
    (k.clientAttrKey, 0, 0)
  else if truthy k.envVar then
    (k.envVar, 1, 0)
  else if k.envFileExists then
    (readKeyFromEnvFile k.envFileLines, 1, 1)
  else
    (k.envVar, 1, 0)

/-- The fixed upstream model identifier of `get_realtime_session` and the
upstream connect URL. -/
def realtimeModel : String := "gpt-4o-realtime-preview-2024-10-01"

/-- Body of a successful `/api/realtime-session` response. -/
structure SessionConfig where
  apiKey : String
  model : String
  deriving Repr, DecidableEq

/-- `GET /api/realtime-session` (`server.py` lines 117-148): reject with
a 500 when the module-level client is `None` or the lookup yields a falsy
key; otherwise return the key itself, unmasked, with the fixed model
identifier. -/
def get_realtime_session (hasClient : Bool) (k : KeyEnv) :
    Except (Nat × String) SessionConfig :=
  if !hasClient then
    .error (500, "OpenAI API key not configured")
  else
    let key := (lookupApiKey k).1
    if !truthy key then
      .error (500, "API key not available")
    else
      .ok ⟨key.getD "", realtimeModel⟩

/-- A Python exception as observed by `except Exception as e` in the
transcribe endpoint: either the endpoint's own `HTTPException` (whose
`str` is `"status: detail"`) or another exception with a message. -/
inductive PyExc
  | http (status : Nat) (detail : String)
  | other (msg : String)
  deriving Repr, DecidableEq

/-- Python `str(e)` for the exceptions above (Starlette's `HTTPException`
formats as `"status_code: detail"`). -/
def pyStr : PyExc → String
  | .http s d => toString s ++ ": " ++ d
  | .other m => m

/-- Outcome of a request to `/api/transcribe`. -/
inductive TranscribeResult
  | transcription (text : String)
  | httpError (status : Nat) (detail : String)
  deriving Repr, DecidableEq

/-- `POST /api/transcribe` (`server.py` lines 150-197). `whisperResult` is
the upstream transcription call's outcome (`.error` when it raises). The
body of the `try` block raises `HTTPException(400, ...)` for an
implausibly small payload or an empty transcription; the trailing
`except Exception as e: raise HTTPException(status_code=500, detail=str(e))`
catches every exception raised inside the `try` block — the endpoint's own
`HTTPException`s included, since `HTTPException` subclasses `Exception`. -/
def transcribe_audio (hasClient : Bool) (fileSize : Nat)
    (whisperResult : Except String String) : TranscribeResult :=
  if !hasClient then
    .httpError 500
      "OpenAI API key not configured. Please set OPENAI_API_KEY in backend/.env"
  else
    let body : Except PyExc String :=
      if fileSize < 1000 then
        .error (.http 400
          ("Audio file too small (" ++ toString fileSize ++
           " bytes). Please record for longer."))
      else
        match whisperResult with
        | .error e => .error (.other e)
        | .ok t =>
          let text := pyStrip t
          if text.isEmpty then
            .error (.http 400
              "No speech detected in audio. Please try speaking more clearly or longer.")
          else
            .ok text
    match body with
    | .ok t => .transcription t
    | .error e => .httpError 500 (pyStr e)

/-- Severity of an observability event emitted by the relay. -/
inductive Severity
  | debug | info | error
  deriving Repr, DecidableEq

/-- What `json.loads(message)` followed by `.get` can yield in the
classification block: a raised decode error, a non-dict document (whose
`.get("type", ...)` raises `AttributeError`), or a dict whose `type`
entry — a string when present — is extracted. The relay treats frames as
opaque, so the parse behaviour is a parameter of the embedding. -/
inductive ParseOutcome
  | fail
  | nonDict
  | dict (typeTag : Option String)
  deriving Repr, DecidableEq

/-- The classification block of `openai_to_client` (`server.py` lines
339-356): its whole body sits inside `try ... except Exception`, so a
decode failure or a `.get` on a non-dict only produces the debug log of
the `except` arm; a dict produces the type-tag info log followed by the
tag-specific log, and classification never raises past the block. -/
def classifyLogs (parse : String → ParseOutcome) (message : String) :
    List (Severity × String) :=
  match parse message with
  | .fail => [(.debug, "Could not parse message as JSON")]
  | .nonDict => [(.debug, "Could not parse message as JSON")]
  | .dict t =>
    let msgType := t.getD "unknown"
    (.info, "Received message type: " ++ msgType) ::
    (if msgType = "error" then [(.error, "Error from OpenAI")]
     else if msgType = "response.created" then [(.info, "Response created")]
     else if msgType = "response.audio.started" then
       [(.info, "Audio response started")]
     else if msgType = "response.audio.delta" then
       [(.debug, "Audio delta received")]
     else if msgType = "response.done" then [(.info, "Response done")]
     else [])

/-- One outcome of an iteration of the client→upstream loop's body: the
`receive_text` yields a frame (and its `send` to upstream succeeds), or
raises `WebSocketDisconnect`, or the body raises some other exception
(a receive failure, or a send whose frame is therefore not delivered).
A session whose list is exhausted without a terminal event has a client
path blocked forever on `receive_text`. -/
inductive ClientEvent
  | frame (data : String)
  | disconnect
  | error (err : String)
  deriving Repr, DecidableEq

/-- One outcome of an iteration of the upstream→client loop: the
`async for` yields a frame (forwarded successfully), yields a frame whose
`send_text` to the client then raises, ends normally on a clean upstream
close, or raises a connection error. An exhausted list without a terminal
event means the path is blocked waiting for the next upstream frame. -/
inductive UpstreamEvent
  | msg (data : String)
  | sendFail (data : String) (err : String)
  | iterEnd
  | iterErr (err : String)
  deriving Repr, DecidableEq

/-- The `client_to_openai` coroutine (`server.py` lines 322-331):
`while True: data = await websocket.receive_text(); await openai_ws.send(data)`,
with `WebSocketDisconnect` and any other exception caught inside the
coroutine. Returns the frames delivered to the upstream, in order. -/
def client_to_openai : List ClientEvent → List String
  | [] => []
  | .frame d :: rest => d :: client_to_openai rest
  | .disconnect :: _ => []
  | .error _ :: _ => []

/-- Whether the client→upstream coroutine ever returns (it loops until an
exception; with no terminal event it stays blocked on `receive_text`). -/
def clientPathEnds : List ClientEvent → Bool
  | [] => false
  | .frame _ :: rest => clientPathEnds rest
  | .disconnect :: _ => true
  | .error _ :: _ => true

/-- The `openai_to_client` coroutine (`server.py` lines 334-359): for each
frame yielded by the upstream iterator, run the classification block
(side-channel logs only), then `send_text` the frame to the client,
verbatim; any exception is caught inside the coroutine. Returns the
frames delivered to the client, in order, with the logs emitted. -/
def openai_to_client (parse : String → ParseOutcome) :
    List UpstreamEvent → List String × List (Severity × String)
  | [] => ([], [])
  | .msg d :: rest =>
    let r := openai_to_client parse rest
    (d :: r.1, classifyLogs parse d ++ r.2)
  | .sendFail d e :: _ =>
    ([], classifyLogs parse d ++ [(.error, "Error forwarding openai->client: " ++ e)])
  | .iterEnd :: _ => ([], [])
  | .iterErr e :: _ =>
    ([], [(.error, "Error forwarding openai->client: " ++ e)])

/-- Whether the upstream→client coroutine ever returns. -/
def upstreamPathEnds : List UpstreamEvent → Bool
  | [] => false
  | .msg _ :: rest => upstreamPathEnds rest
  | .sendFail _ _ :: _ => true
  | .iterEnd :: _ => true
  | .iterErr _ :: _ => true

/-- External behaviour of one `/ws/realtime` session. -/
structure Env where
  /-- `openai_client is not None` (module-level startup succeeded). -/
  hasClient : Bool
  /-- Inputs of the per-request key lookup. -/
  keyEnv : KeyEnv
  /-- Whether `websockets.connect` to the upstream succeeds. -/
  connectOk : Bool
  /-- `str(e)` of the connect failure when it fails. -/
  connectErr : String
  /-- The client-side receive events, in order. -/
  clientEvents : List ClientEvent
  /-- The upstream-side iterator events, in order. -/
  upstreamEvents : List UpstreamEvent
  /-- Whether `websocket.close(...)` on the client connection raises. -/
  clientCloseFails : Bool
  /-- Whether closing the upstream connection (the `async with` exit)
  raises. -/
  upstreamCloseFails : Bool

/-- Observable outcome of one run of the `websocket_realtime` handler. -/
structure RunResult where
  /-- Number of `websockets.connect` attempts to the upstream. -/
  upstreamConnectAttempts : Nat
  /-- Whether an upstream connection was established. -/
  upstreamOpened : Bool
  /-- Whether the two forwarding coroutines were started. -/
  forwardingStarted : Bool
  /-- Frames delivered to the upstream, in order. -/
  sentToUpstream : List String
  /-- Frames delivered to the client, in order. -/
  sentToClient : List String
  /-- Classification/forwarding logs of the outbound path. -/
  logs : List (Severity × String)
  /-- The `websocket.close(code, reason)` calls issued on the client
  connection, in order (recorded even when the transport close fails). -/
  clientCloseCalls : List (Nat × String)
  /-- Close operations that took effect on the upstream connection; the
  `finally` block's re-close of an already-closed connection is a no-op
  in the websockets library and adds nothing here. -/
  upstreamCloseFrames : Nat
  /-- Whether the upstream connection ended closed. -/
  upstreamClosed : Bool
  /-- Whether the handler returned (as opposed to hanging forever inside
  `asyncio.gather`). -/
  completed : Bool
  /-- Whether an exception escaped the handler. -/
  raised : Bool
  /-- Environment reads performed by this session's key lookup. -/
  envReads : Nat
  /-- `.env` file opens performed by this session's key lookup. -/
  fileReads : Nat

/-- A run that did nothing yet. -/
def emptyRun : RunResult :=
  ⟨0, false, false, [], [], [], [], 0, false, false, false, 0, 0⟩

/-- The `/ws/realtime` handler `websocket_realtime` (`server.py` lines
274-378), step by step:

* `openai_client` is `None`: `close(1008, ...)` — issued before the `try`
  block, so a transport failure there escapes the handler — then return.
* per-request key lookup (inside the `try`); a falsy key:
  `close(1008, "API key not available")`, whose own failure falls to the
  `except` arm (`close(1011, str(e))`, swallowed), then return.
* `websockets.connect`; a failure falls to the `except` arm:
  `close(1011, str(e))` on the client, swallowed if it fails, the
  `finally` block finds `openai_ws` still `None`, and the handler returns
  with no forwarding started.
* otherwise both forwarding coroutines run under `asyncio.gather`. Each
  coroutine swallows its own exceptions, so `gather` returns only when
  BOTH have terminated; with one of them blocked the handler never
  returns. When `gather` returns, the `async with` exit closes the
  upstream (a failure there falls to the `except` arm, closing the client
  with 1011), and the `finally` block's second close of the
  already-closed upstream is a no-op. -/
def websocket_realtime (parse : String → ParseOutcome) (env : Env) :
    RunResult :=
  if !env.hasClient then
    if env.clientCloseFails then
      { emptyRun with
        clientCloseCalls := [(1008, "OpenAI API key not configured")],
        raised := true }
    else
      { emptyRun with
        clientCloseCalls := [(1008, "OpenAI API key not configured")],
        completed := true }
  else
    let lk := lookupApiKey env.keyEnv
    if !truthy lk.1 then
      if env.clientCloseFails then
        { emptyRun with
          envReads := lk.2.1, fileReads := lk.2.2,
          clientCloseCalls :=
            [(1008, "API key not available"), (1011, "client close failed")],
          completed := true }
      else
        { emptyRun with
          envReads := lk.2.1, fileReads := lk.2.2,
          clientCloseCalls := [(1008, "API key not available")],
          completed := true }
    else if !env.connectOk then
      { emptyRun with
        envReads := lk.2.1, fileReads := lk.2.2,
        upstreamConnectAttempts := 1,
        clientCloseCalls := [(1011, env.connectErr)],
        completed := true }
    else
      let fwd := openai_to_client parse env.upstreamEvents
      if clientPathEnds env.clientEvents && upstreamPathEnds env.upstreamEvents then
        if env.upstreamCloseFails then
          { emptyRun with
            envReads := lk.2.1, fileReads := lk.2.2,
            upstreamConnectAttempts := 1, upstreamOpened := true,
            forwardingStarted := true,
            sentToUpstream := client_to_openai env.clientEvents,
            sentToClient := fwd.1, logs := fwd.2,
            clientCloseCalls := [(1011, "upstream close failed")],
            upstreamCloseFrames := 0, upstreamClosed := true,
            completed := true }
        else
          { emptyRun with
            envReads := lk.2.1, fileReads := lk.2.2,
            upstreamConnectAttempts := 1, upstreamOpened := true,
            forwardingStarted := true,
            sentToUpstream := client_to_openai env.clientEvents,
            sentToClient := fwd.1, logs := fwd.2,
            upstreamCloseFrames := 1, upstreamClosed := true,
            completed := true }
      else
        { emptyRun with
          envReads := lk.2.1, fileReads := lk.2.2,
          upstreamConnectAttempts := 1, upstreamOpened := true,
          forwardingStarted := true,
          sentToUpstream := client_to_openai env.clientEvents,
          sentToClient := fwd.1, logs := fwd.2 }

/-- Modelled from the spec: the close code the client connection ends up
with. The handler itself closes the client only on the 1008/1011 paths;
on a normal return without an explicit close, the inbound server
framework — which is not part of `backend/server.py` — closes the
connection with the normal-closure code 1000 (spec §4.4/§7: a clean peer
close is answered with code 1000). A run that never returns closes
nothing. -/
def RunResult.finalClientCloseCode (r : RunResult) : Option Nat :=
  match r.clientCloseCalls with
  | (c, _) :: _ => some c
  | [] => if r.completed then some 1000 else none

/-! Helper lemmas about the forwarding loops. -/

theorem client_to_openai_frames (cs : List String) :
    client_to_openai (cs.map ClientEvent.frame ++ [ClientEvent.disconnect]) = cs := by
  induction cs with
  | nil => rfl
  | cons a t ih => simp [client_to_openai, ih]

theorem clientPathEnds_frames (cs : List String) :
    clientPathEnds (cs.map ClientEvent.frame ++ [ClientEvent.disconnect]) = true := by
  induction cs with
  | nil => rfl
  | cons a t ih => simpa [clientPathEnds] using ih

theorem openai_to_client_fst (parse : String → ParseOutcome) (ms : List String) :
    (openai_to_client parse
      (ms.map UpstreamEvent.msg ++ [UpstreamEvent.iterEnd])).1 = ms := by
  induction ms with
  | nil => rfl
  | cons a t ih => simp [openai_to_client, ih]

theorem upstreamPathEnds_msgs (ms : List String) :
    upstreamPathEnds (ms.map UpstreamEvent.msg ++ [UpstreamEvent.iterEnd]) = true := by
  induction ms with
  | nil => rfl
  | cons a t ih => simpa [upstreamPathEnds] using ih

/-! Concrete environments used by counterexamples and witnesses. -/

/-- A parse behaviour on which `json.loads` always fails (non-JSON frames). -/
def parseFail : String → ParseOutcome := fun _ => ParseOutcome.fail

/-- A key environment where the in-memory client attribute yields the key. -/
def keyAttr : KeyEnv := ⟨some "sk-test", none, false, []⟩

/-- A key environment where the attribute chain fails and only the process
environment has the key. -/
def keyEnvNoAttr : KeyEnv := ⟨none, some "sk-env-key", false, []⟩

/-- An established session where the client path has terminated
(disconnect) while the upstream path is still blocked on its next frame. -/
def envOneSideDone : Env := ⟨true, keyAttr, true, "", [ClientEvent.disconnect], [], false, false⟩

/-- An established session where both paths terminate. -/
def envBothDone : Env :=
  ⟨true, keyAttr, true, "", [ClientEvent.disconnect], [UpstreamEvent.iterEnd], false, false⟩

/-- An established session where the upstream closes cleanly while the
client stays connected and silent forever. -/
def envUpCleanClientSilent : Env :=
  ⟨true, keyAttr, true, "", [], [UpstreamEvent.iterEnd], false, false⟩

/-- A connect-failure session. -/
def envConnectFail : Env :=
  ⟨true, keyAttr, false, "connection refused", [], [], false, false⟩

/-- An inbound connection arriving with no configured credential at all. -/
def envNoCredential : Env := ⟨false, keyAttr, true, "", [], [], false, false⟩

/-- An established session whose key lookup had to fall back to the
process environment. -/
def envAttrMissing : Env :=
  ⟨true, keyEnvNoAttr, true, "", [ClientEvent.disconnect], [UpstreamEvent.iterEnd], false, false⟩

/-- An established relay session carrying one frame each way. -/
def envOneFrameEachWay : Env :=
  ⟨true, keyAttr, true, "",
   [ClientEvent.frame "hello", ClientEvent.disconnect],
   [UpstreamEvent.msg "world", UpstreamEvent.iterEnd], false, false⟩

/-- An established session in which the upstream sends one frame that is
not valid JSON and then closes cleanly. -/
def envNonJsonFrame : Env :=
  ⟨true, keyAttr, true, "",
   [ClientEvent.disconnect],
   [UpstreamEvent.msg "this is not json", UpstreamEvent.iterEnd], false, false⟩

/-! The claims. -/

/-- C1 (counterexample): in the session `envOneSideDone` exactly one
forwarding path has terminated (the client path; the upstream path is
still blocked), yet the relay run has not returned — `asyncio.gather`
waits for both coroutines, and no cancellation of the still-running path
exists anywhere in the handler. This refutes the claim that the run
returns as soon as one path terminates. -/
theorem relay_run_waits_for_both_paths :
    clientPathEnds envOneSideDone.clientEvents = true ∧
    upstreamPathEnds envOneSideDone.upstreamEvents = false ∧
    (websocket_realtime parseFail envOneSideDone).completed = false := by
  refine ⟨rfl, rfl, ?_⟩
  decide

/-- C1 (amended): the relay run returns exactly when BOTH forwarding
paths have terminated on their own; a session in which one path remains
blocked never returns, and the still-running path is never force-
terminated. -/
theorem relay_run_returns_iff_both_paths_end (parse : String → ParseOutcome)
    (env : Env)
    (h1 : env.hasClient = true)
    (h2 : truthy (lookupApiKey env.keyEnv).1 = true)
    (h3 : env.connectOk = true) :
    (websocket_realtime parse env).completed =
      (clientPathEnds env.clientEvents && upstreamPathEnds env.upstreamEvents) := by
  simp only [websocket_realtime, h1, h2, h3, Bool.not_true, Bool.false_eq_true,
    if_false]
  cases hb : clientPathEnds env.clientEvents && upstreamPathEnds env.upstreamEvents with
  | false => simp [hb, emptyRun]
  | true => cases hcf : env.upstreamCloseFails <;> simp [hb, hcf, emptyRun]

/-- C1 (amended, witness): instantiated at a session where both paths
terminate. -/
theorem relay_run_returns_iff_both_paths_end_witness :
    (websocket_realtime parseFail envBothDone).completed =
      (clientPathEnds envBothDone.clientEvents &&
       upstreamPathEnds envBothDone.upstreamEvents) :=
  relay_run_returns_iff_both_paths_end parseFail envBothDone rfl (by decide) rfl

/-- C2: on every exit path of a session (a run that returns), the client
connection ends closed (explicitly with 1008/1011, or by the inbound
server's normal close when the handler returns without one) and the
upstream connection, when it was opened, ends closed; at most one close
call is issued per connection (the `finally` block's second close of the
already-closed upstream is a no-op), and no exception — in particular no
failure of a close itself — escapes the handler. -/
theorem teardown_closes_both_connections (parse : String → ParseOutcome)
    (env : Env)
    (h1 : env.hasClient = true)
    (h2 : truthy (lookupApiKey env.keyEnv).1 = true)
    (hc : (websocket_realtime parse env).completed = true) :
    ((websocket_realtime parse env).finalClientCloseCode).isSome = true ∧
    ((websocket_realtime parse env).upstreamOpened = true →
       (websocket_realtime parse env).upstreamClosed = true) ∧
    (websocket_realtime parse env).upstreamCloseFrames ≤ 1 ∧
    (websocket_realtime parse env).clientCloseCalls.length ≤ 1 ∧
    (websocket_realtime parse env).raised = false := by
  simp only [websocket_realtime, h1, h2, Bool.not_true, Bool.false_eq_true,
    if_false] at hc ⊢
  cases hco : env.connectOk with
  | false => simp [hco, emptyRun, RunResult.finalClientCloseCode]
  | true =>
    simp only [hco, Bool.not_true, Bool.false_eq_true, if_false] at hc ⊢
    cases hb : clientPathEnds env.clientEvents && upstreamPathEnds env.upstreamEvents with
    | false => simp [hb, emptyRun] at hc
    | true =>
      cases hcf : env.upstreamCloseFails <;>
        simp [hb, hcf, emptyRun, RunResult.finalClientCloseCode]

/-- C2 (witness): instantiated at a completed session. -/
theorem teardown_closes_both_connections_witness :
    ((websocket_realtime parseFail envBothDone).finalClientCloseCode).isSome = true ∧
    ((websocket_realtime parseFail envBothDone).upstreamOpened = true →
       (websocket_realtime parseFail envBothDone).upstreamClosed = true) ∧
    (websocket_realtime parseFail envBothDone).upstreamCloseFrames ≤ 1 ∧
    (websocket_realtime parseFail envBothDone).clientCloseCalls.length ≤ 1 ∧
    (websocket_realtime parseFail envBothDone).raised = false :=
  teardown_closes_both_connections parseFail envBothDone rfl (by decide) (by decide)

/-- C3: when no credential is available — the module-level client is
`None`, or the per-request lookup yields no (truthy) key — the inbound
connection is closed with code 1008, no upstream connect is ever
attempted, and no upstream connection is opened. -/
theorem credential_gating (parse : String → ParseOutcome) (env : Env)
    (h : env.hasClient = false ∨ truthy (lookupApiKey env.keyEnv).1 = false) :
    (websocket_realtime parse env).finalClientCloseCode = some 1008 ∧
    (websocket_realtime parse env).upstreamConnectAttempts = 0 ∧
    (websocket_realtime parse env).upstreamOpened = false := by
  cases hHC : env.hasClient with
  | false =>
    cases hcf : env.clientCloseFails <;>
      simp [websocket_realtime, hHC, hcf, emptyRun, RunResult.finalClientCloseCode]
  | true =>
    rcases h with h | h
    · exact absurd hHC (by simp [h])
    · cases hcf : env.clientCloseFails <;>
        simp [websocket_realtime, hHC, h, hcf, emptyRun, RunResult.finalClientCloseCode]

/-- C3 (witness): instantiated at a connection arriving with no
configured credential. -/
theorem credential_gating_witness :
    (websocket_realtime parseFail envNoCredential).finalClientCloseCode = some 1008 ∧
    (websocket_realtime parseFail envNoCredential).upstreamConnectAttempts = 0 ∧
    (websocket_realtime parseFail envNoCredential).upstreamOpened = false :=
  credential_gating parseFail envNoCredential (Or.inl rfl)

/-- C4 (counterexample): in `envUpCleanClientSilent` the upstream closes
cleanly, but the client side never acts, so `asyncio.gather` never
returns and the client connection is never closed at all — in particular
it is not closed with code 1000 as the claim states. -/
theorem clean_close_not_mirrored_while_client_blocked :
    envUpCleanClientSilent.upstreamEvents = [UpstreamEvent.iterEnd] ∧
    (websocket_realtime parseFail envUpCleanClientSilent).finalClientCloseCode = none := by
  refine ⟨rfl, ?_⟩
  decide

/-- C4 (amended): in an established session whose upstream closes cleanly,
once the client-side path has also terminated (the engine waits for both)
and closing the upstream does not itself fail, the client connection is
closed with code 1000 — the handler issues no explicit close call at all,
in particular none with code 1011, and the inbound server's normal close
applies. -/
theorem clean_upstream_close_mirrors_1000 (parse : String → ParseOutcome)
    (env : Env) (ms : List String)
    (h1 : env.hasClient = true)
    (h2 : truthy (lookupApiKey env.keyEnv).1 = true)
    (h3 : env.connectOk = true)
    (h4 : env.upstreamEvents = ms.map UpstreamEvent.msg ++ [UpstreamEvent.iterEnd])
    (h5 : clientPathEnds env.clientEvents = true)
    (h6 : env.upstreamCloseFails = false) :
    (websocket_realtime parse env).finalClientCloseCode = some 1000 ∧
    (websocket_realtime parse env).clientCloseCalls = [] := by
  simp [websocket_realtime, h1, h2, h3, h4, h5, h6, upstreamPathEnds_msgs,
    emptyRun, RunResult.finalClientCloseCode]

/-- C4 (amended, witness): one upstream frame, then a clean close; the
client disconnects afterwards. -/
theorem clean_upstream_close_mirrors_1000_witness :
    (websocket_realtime parseFail envBothDone).finalClientCloseCode = some 1000 ∧
    (websocket_realtime parseFail envBothDone).clientCloseCalls = [] :=
  clean_upstream_close_mirrors_1000 parseFail envBothDone []
    rfl (by decide) rfl rfl rfl rfl

/-- C5: with a credential available but the upstream connect failing, the
client connection is closed with code 1011 carrying the connect failure
as reason, exactly one connect attempt is made, and no forwarding
coroutine ever starts (no frame moves in either direction). -/
theorem connect_failure_closes_1011 (parse : String → ParseOutcome) (env : Env)
    (h1 : env.hasClient = true)
    (h2 : truthy (lookupApiKey env.keyEnv).1 = true)
    (h3 : env.connectOk = false) :
    (websocket_realtime parse env).clientCloseCalls = [(1011, env.connectErr)] ∧
    (websocket_realtime parse env).forwardingStarted = false ∧
    (websocket_realtime parse env).sentToUpstream = [] ∧
    (websocket_realtime parse env).sentToClient = [] ∧
    (websocket_realtime parse env).upstreamConnectAttempts = 1 := by
  simp [websocket_realtime, h1, h2, h3, emptyRun]

/-- C5 (witness): instantiated at a refused upstream connection. -/
theorem connect_failure_closes_1011_witness :
    (websocket_realtime parseFail envConnectFail).clientCloseCalls =
      [(1011, envConnectFail.connectErr)] ∧
    (websocket_realtime parseFail envConnectFail).forwardingStarted = false ∧
    (websocket_realtime parseFail envConnectFail).sentToUpstream = [] ∧
    (websocket_realtime parseFail envConnectFail).sentToClient = [] ∧
    (websocket_realtime parseFail envConnectFail).upstreamConnectAttempts = 1 :=
  connect_failure_closes_1011 parseFail envConnectFail rfl (by decide) rfl

/-- C6: in an established session where the client sends the frames `cs`
and then disconnects, and the upstream delivers the frames `ms` and then
closes, the upstream receives exactly `cs` and the client exactly `ms` —
byte-for-byte, in order, nothing reordered, split, merged, or dropped —
whatever the classification's parse behaviour is. -/
theorem relay_preserves_frames_and_order (parse : String → ParseOutcome)
    (env : Env) (cs ms : List String)
    (h1 : env.hasClient = true)
    (h2 : truthy (lookupApiKey env.keyEnv).1 = true)
    (h3 : env.connectOk = true)
    (hc : env.clientEvents = cs.map ClientEvent.frame ++ [ClientEvent.disconnect])
    (hu : env.upstreamEvents = ms.map UpstreamEvent.msg ++ [UpstreamEvent.iterEnd]) :
    (websocket_realtime parse env).sentToUpstream = cs ∧
    (websocket_realtime parse env).sentToClient = ms := by
  cases hcf : env.upstreamCloseFails <;>
    simp [websocket_realtime, h1, h2, h3, hc, hu, hcf, clientPathEnds_frames,
      upstreamPathEnds_msgs, client_to_openai_frames, openai_to_client_fst,
      emptyRun]

/-- C6 (witness): one frame each way. -/
theorem relay_preserves_frames_and_order_witness :
    (websocket_realtime parseFail envOneFrameEachWay).sentToUpstream = ["hello"] ∧
    (websocket_realtime parseFail envOneFrameEachWay).sentToClient = ["world"] :=
  relay_preserves_frames_and_order parseFail envOneFrameEachWay ["hello"] ["world"]
    rfl (by decide) rfl rfl rfl

/-- C7: whatever `json.loads` does on the frames of the outbound path —
failing on non-JSON input, yielding a document without a type tag, or a
non-dict on which `.get` raises — the classification block never lets an
exception out of the forwarding loop: every upstream frame is still
forwarded verbatim to the client, nothing escapes the handler, and the
session terminates exactly as it would otherwise. -/
theorem classification_never_breaks_forwarding (parse : String → ParseOutcome)
    (env : Env) (ms : List String)
    (h1 : env.hasClient = true)
    (h2 : truthy (lookupApiKey env.keyEnv).1 = true)
    (h3 : env.connectOk = true)
    (hu : env.upstreamEvents = ms.map UpstreamEvent.msg ++ [UpstreamEvent.iterEnd])
    (h5 : clientPathEnds env.clientEvents = true)
    (h6 : env.upstreamCloseFails = false) :
    (websocket_realtime parse env).sentToClient = ms ∧
    (websocket_realtime parse env).raised = false ∧
    (websocket_realtime parse env).completed = true := by
  simp [websocket_realtime, h1, h2, h3, hu, h5, h6, upstreamPathEnds_msgs,
    openai_to_client_fst, emptyRun]

/-- C7 (witness): a frame that is not valid JSON (the parse behaviour
fails on every input) is still delivered verbatim. -/
theorem classification_never_breaks_forwarding_witness :
    (websocket_realtime parseFail envNonJsonFrame).sentToClient = ["this is not json"] ∧
    (websocket_realtime parseFail envNonJsonFrame).raised = false ∧
    (websocket_realtime parseFail envNonJsonFrame).completed = true :=
  classification_never_breaks_forwarding parseFail envNonJsonFrame
    ["this is not json"] rfl (by decide) rfl rfl rfl rfl

/-- C8 (counterexample): in the session `envAttrMissing` — a perfectly
ordinary one whose in-memory client object does not expose the key — the
websocket handler's own credential lookup reads the process environment
again, refuting the claim that no operation re-reads the configuration or
the environment after the single process-start resolution. -/
theorem session_rereads_environment :
    ¬ ((websocket_realtime parseFail envAttrMissing).envReads = 0) := by
  decide

/-- C8 (amended): the credential is resolved at process start, but every
request re-runs the lookup: it performs no re-read only when the
in-memory client attribute yields the key; otherwise it reads the
environment exactly once more, and when the environment also lacks the
key it re-opens the `.env` file (once, when the file exists). No retry
or refresh beyond this per-request lookup occurs. -/
theorem credential_lookup_reread_counts (k : KeyEnv) :
    (lookupApiKey k).2.1 = (if truthy k.clientAttrKey then 0 else 1) ∧
    (lookupApiKey k).2.2 =
      (if truthy k.clientAttrKey || truthy k.envVar then 0
       else if k.envFileExists then 1 else 0) := by
  cases h1 : truthy k.clientAttrKey <;> cases h2 : truthy k.envVar <;>
    cases h3 : k.envFileExists <;> simp [lookupApiKey, h1, h2, h3]

/-- C9: the transcribe endpoint's own client-error responses never reach
the caller as such — a 500-byte upload, and a 2000-byte upload whose
transcription is blank, both produce HTTP 500 responses: the
`HTTPException(400, ...)` raised inside the `try` block is caught by the
trailing `except Exception` and re-raised as
`HTTPException(500, str(e))`. -/
theorem transcribe_client_errors_surface_as_500 :
    transcribe_audio true 500 (Except.ok "hello") =
      TranscribeResult.httpError 500
        "400: Audio file too small (500 bytes). Please record for longer." ∧
    transcribe_audio true 2000 (Except.ok "   ") =
      TranscribeResult.httpError 500
        "400: No speech detected in audio. Please try speaking more clearly or longer." := by
  constructor <;> decide

/-- C10: whenever the module-level client exists and the per-request
lookup resolves a non-empty key, `GET /api/realtime-session` returns the
credential itself — in full, unmasked — together with the fixed upstream
model identifier; when the lookup yields no key, or the module-level
client is absent, the endpoint fails with a 500 error. -/
theorem realtime_session_returns_unmasked_credential (k : KeyEnv) :
    (∀ key : String, (lookupApiKey k).1 = some key → key.isEmpty = false →
       get_realtime_session true k = Except.ok ⟨key, realtimeModel⟩) ∧
    (truthy (lookupApiKey k).1 = false →
       get_realtime_session true k = Except.error (500, "API key not available")) ∧
    get_realtime_session false k = Except.error (500, "OpenAI API key not configured") := by
  refine ⟨?_, ?_, ?_⟩
  · intro key hk hne
    simp [get_realtime_session, hk, truthy, hne]
  · intro h
    simp [get_realtime_session, h]
  · simp [get_realtime_session]

/-- C10 (witness): the configured key comes back verbatim with the model
identifier. -/
theorem realtime_session_returns_unmasked_credential_witness :
    get_realtime_session true keyAttr = Except.ok ⟨"sk-test", realtimeModel⟩ :=
  (realtime_session_returns_unmasked_credential keyAttr).1 "sk-test"
    (by decide) (by decide)

end Avatar
